import Mathlib

/-
Verification of js/seguridad.js (SolutionRevealer).

The file defines showSolutionPrompt(exerciseId), which
  1. maps the exercise id to its password via a switch with three cases
     (default: console.error + alert + return),
  2. shows a blocking prompt (null on cancel: silent return),
  3. on exact string equality with the registered password, looks up the
     element with id "solution-" + exerciseId and sets style.display to
     "block" (falling back to console.error + alert if absent),
  4. otherwise alerts "Contraseña incorrecta.".

Shallow embedding: the DOM is a list of elements in document order, each
holding its id attribute and the value of style.display; the prompt result
is passed in as Option String (none models pressing Cancel); the result
records the final DOM, whether a prompt was shown, and the alert and
console.error messages emitted, in order.
-/

namespace Seguridad

/-- A DOM element: its id attribute and the current value of style.display. -/
structure Elem where
  id : String
  display : String
deriving DecidableEq, Repr

/-- The page: the list of DOM elements, in document order. -/
abbrev Page := List Elem

/-- document.getElementById: the first element with the given id, if any. -/
def getElementById : Page → String → Option Elem
  | [], _ => none
  | e :: es, i => if e.id = i then some e else getElementById es i

/-- Assignment to style.display of the element document.getElementById
returns: the first element with the given id gets the new display value,
all other elements are untouched. -/
def setDisplay : Page → String → String → Page
  | [], _, _ => []
  | e :: es, i, d =>
      if e.id = i then { e with display := d } :: es
      else e :: setDisplay es i d

/-- The switch statement of showSolutionPrompt: the password assigned to
correctPassword for each exercise id, none for the default branch. -/
def correctPasswordFor (exerciseId : String) : Option String :=
  if exerciseId = "UD1-1" then some "cliente-servidor"
  else if exerciseId = "UD1-2" then some "http"
  else if exerciseId = "db-05" then some "persistencia_nexus"
  else none

/-- Observable outcome of one invocation of showSolutionPrompt. -/
structure Result where
  page : Page
  promptShown : Bool
  alerts : List String
  consoleErrors : List String
deriving DecidableEq, Repr

/-- showSolutionPrompt(exerciseId) from js/seguridad.js. The entered
argument models the return value of prompt(...): none is Cancel. -/
def showSolutionPrompt (exerciseId : String) (entered : Option String)
    (page : Page) : Result :=
  match correctPasswordFor exerciseId with
  | none =>
      { page := page
        promptShown := false
        alerts := ["Error de configuración: No se ha encontrado el ejercicio."]
        consoleErrors := ["Error: ID de ejercicio no reconocido: " ++ exerciseId] }
  | some correctPassword =>
      match entered with
      | none =>
          { page := page, promptShown := true, alerts := [], consoleErrors := [] }
      | some enteredPassword =>
          if enteredPassword = correctPassword then
            match getElementById page ("solution-" ++ exerciseId) with
            | some _ =>
                { page := setDisplay page ("solution-" ++ exerciseId) "block"
                  promptShown := true
                  alerts := []
                  consoleErrors := [] }
            | none =>
                { page := page
                  promptShown := true
                  alerts := ["Error de configuración: No se encuentra el contenido de la solución."]
                  consoleErrors :=
                    ["Error: No se encontró el bloque de solución con el ID: solution-" ++ exerciseId] }
          else
            { page := page
              promptShown := true
              alerts := ["Contraseña incorrecta."]
              consoleErrors := [] }

/-- The successful-match path: the id is registered, the entered string is
the registered password, and the target element exists on the page. -/
def successPath (exerciseId : String) (entered : Option String)
    (page : Page) : Prop :=
  ∃ pw, correctPasswordFor exerciseId = some pw ∧ entered = some pw ∧
    (getElementById page ("solution-" ++ exerciseId)).isSome = true

/-- Looking up the id just written by setDisplay returns the old element
with its display replaced. -/
theorem getElementById_setDisplay (page : Page) (i d : String) :
    getElementById (setDisplay page i d) i
      = (getElementById page i).map (fun e => { e with display := d }) := by
  induction page with
  | nil => rfl
  | cons e es ih =>
    by_cases h : e.id = i
    · simp [setDisplay, getElementById, h]
    · simp [setDisplay, getElementById, h, ih]

/-- Writing the same display value twice is the same as writing it once. -/
theorem setDisplay_setDisplay (page : Page) (i d : String) :
    setDisplay (setDisplay page i d) i d = setDisplay page i d := by
  induction page with
  | nil => rfl
  | cons e es ih =>
    by_cases h : e.id = i
    · simp [setDisplay, h]
    · simp [setDisplay, h, ih]

/-- setDisplay leaves every element whose id differs from the target in
place, at its original position. -/
theorem setDisplay_getElem? (page : Page) (i d : String) (j : Nat) (e : Elem)
    (hj : page[j]? = some e) (hne : e.id ≠ i) :
    (setDisplay page i d)[j]? = some e := by
  induction page generalizing j with
  | nil => simp at hj
  | cons a as ih =>
    cases j with
    | zero =>
      simp at hj
      subst hj
      simp [setDisplay, hne]
    | succ j =>
      simp at hj
      by_cases h : a.id = i
      · simpa [setDisplay, h] using hj
      · simpa [setDisplay, h] using ih j hj

/-- The prompt is shown exactly when the switch found a password. -/
theorem promptShown_eq_isSome (exerciseId : String) (entered : Option String)
    (page : Page) :
    (showSolutionPrompt exerciseId entered page).promptShown
      = (correctPasswordFor exerciseId).isSome := by
  cases h : correctPasswordFor exerciseId with
  | none => simp [showSolutionPrompt, h]
  | some pw =>
    cases entered with
    | none => simp [showSolutionPrompt, h]
    | some p =>
      by_cases hp : p = pw
      · cases hel : getElementById page ("solution-" ++ exerciseId) <;>
          simp [showSolutionPrompt, h, hp, hel]
      · simp [showSolutionPrompt, h, hp]

/-- The page after one invocation: unchanged, or the single setDisplay
write of the successful-match path. -/
theorem page_cases (exerciseId : String) (entered : Option String)
    (page : Page) :
    (showSolutionPrompt exerciseId entered page).page = page ∨
      ((showSolutionPrompt exerciseId entered page).page
          = setDisplay page ("solution-" ++ exerciseId) "block" ∧
        successPath exerciseId entered page) := by
  cases h : correctPasswordFor exerciseId with
  | none => left; simp [showSolutionPrompt, h]
  | some pw =>
    cases entered with
    | none => left; simp [showSolutionPrompt, h]
    | some p =>
      by_cases hp : p = pw
      · cases hel : getElementById page ("solution-" ++ exerciseId) with
        | none => left; simp [showSolutionPrompt, h, hp, hel]
        | some e =>
          right
          refine ⟨by simp [showSolutionPrompt, h, hp, hel], pw, h, by rw [hp], ?_⟩
          simp [hel]
      · left; simp [showSolutionPrompt, h, hp]

/-- Every password stored in the registry is nonempty. -/
theorem registered_password_ne_empty (exerciseId pw : String)
    (hreg : correctPasswordFor exerciseId = some pw) : pw ≠ "" := by
  unfold correctPasswordFor at hreg
  split_ifs at hreg <;> cases hreg <;> decide

/-- C1: for every registered exercise id, entering the registered password
while the element "solution-" ++ exerciseId exists shows no alert and sets
that element's display to "block" (visible). -/
theorem reveal_correct (exerciseId pw : String) (page : Page) (e : Elem)
    (hreg : correctPasswordFor exerciseId = some pw)
    (hel : getElementById page ("solution-" ++ exerciseId) = some e) :
    (showSolutionPrompt exerciseId (some pw) page).alerts = [] ∧
      getElementById (showSolutionPrompt exerciseId (some pw) page).page
          ("solution-" ++ exerciseId)
        = some { e with display := "block" } := by
  constructor
  · simp [showSolutionPrompt, hreg, hel]
  · have hpage : (showSolutionPrompt exerciseId (some pw) page).page
        = setDisplay page ("solution-" ++ exerciseId) "block" := by
      simp [showSolutionPrompt, hreg, hel]
    rw [hpage, getElementById_setDisplay, hel]
    rfl

/-- C1 witness: the concrete scenario with UD1-1, password cliente-servidor
and hidden element solution-UD1-1. -/
theorem reveal_correct_witness :
    (showSolutionPrompt "UD1-1" (some "cliente-servidor")
        [Elem.mk "solution-UD1-1" "none"]).alerts = [] ∧
      getElementById (showSolutionPrompt "UD1-1" (some "cliente-servidor")
          [Elem.mk "solution-UD1-1" "none"]).page "solution-UD1-1"
        = some (Elem.mk "solution-UD1-1" "block") :=
  reveal_correct "UD1-1" "cliente-servidor" [Elem.mk "solution-UD1-1" "none"]
    (Elem.mk "solution-UD1-1" "none") (by decide) (by decide)

/-- C2: for every id missing from the registry, no prompt is shown, the
configuration-error alert is emitted, and the page is unchanged. -/
theorem unrecognized_exercise (exerciseId : String) (entered : Option String)
    (page : Page) (hreg : correctPasswordFor exerciseId = none) :
    (showSolutionPrompt exerciseId entered page).promptShown = false ∧
      (showSolutionPrompt exerciseId entered page).page = page ∧
      (showSolutionPrompt exerciseId entered page).alerts
        = ["Error de configuración: No se ha encontrado el ejercicio."] := by
  refine ⟨?_, ?_, ?_⟩ <;> simp [showSolutionPrompt, hreg]

/-- C2 witness: the unregistered id nonexistent-id. -/
theorem unrecognized_exercise_witness :
    (showSolutionPrompt "nonexistent-id" none
        [Elem.mk "solution-UD1-1" "none"]).promptShown = false ∧
      (showSolutionPrompt "nonexistent-id" none
          [Elem.mk "solution-UD1-1" "none"]).page
        = [Elem.mk "solution-UD1-1" "none"] ∧
      (showSolutionPrompt "nonexistent-id" none
          [Elem.mk "solution-UD1-1" "none"]).alerts
        = ["Error de configuración: No se ha encontrado el ejercicio."] :=
  unrecognized_exercise "nonexistent-id" none
    [Elem.mk "solution-UD1-1" "none"] (by decide)

/-- C3: for every registered id and every entered string different from the
registered password, the page is unchanged and the alert is exactly
"Contraseña incorrecta.". -/
theorem wrong_password (exerciseId pw p : String) (page : Page)
    (hreg : correctPasswordFor exerciseId = some pw) (hne : p ≠ pw) :
    (showSolutionPrompt exerciseId (some p) page).page = page ∧
      (showSolutionPrompt exerciseId (some p) page).alerts
        = ["Contraseña incorrecta."] := by
  refine ⟨?_, ?_⟩ <;> simp [showSolutionPrompt, hreg, hne]

/-- C3 witness: entering wrong for UD1-1 leaves solution-UD1-1 hidden and
alerts "Contraseña incorrecta.". -/
theorem wrong_password_witness :
    (showSolutionPrompt "UD1-1" (some "wrong")
        [Elem.mk "solution-UD1-1" "none"]).page
      = [Elem.mk "solution-UD1-1" "none"] ∧
      (showSolutionPrompt "UD1-1" (some "wrong")
          [Elem.mk "solution-UD1-1" "none"]).alerts
        = ["Contraseña incorrecta."] :=
  wrong_password "UD1-1" "cliente-servidor" "wrong"
    [Elem.mk "solution-UD1-1" "none"] (by decide) (by decide)

/-- C4: for every registered id, cancelling the prompt leaves the page
unchanged and emits no alert and no console error. -/
theorem cancel_silent (exerciseId pw : String) (page : Page)
    (hreg : correctPasswordFor exerciseId = some pw) :
    (showSolutionPrompt exerciseId none page).page = page ∧
      (showSolutionPrompt exerciseId none page).alerts = [] ∧
      (showSolutionPrompt exerciseId none page).consoleErrors = [] := by
  refine ⟨?_, ?_, ?_⟩ <;> simp [showSolutionPrompt, hreg]

/-- C4 witness: cancelling the prompt for UD1-2. -/
theorem cancel_silent_witness :
    (showSolutionPrompt "UD1-2" none [Elem.mk "solution-UD1-2" "none"]).page
      = [Elem.mk "solution-UD1-2" "none"] ∧
      (showSolutionPrompt "UD1-2" none
          [Elem.mk "solution-UD1-2" "none"]).alerts = [] ∧
      (showSolutionPrompt "UD1-2" none
          [Elem.mk "solution-UD1-2" "none"]).consoleErrors = [] :=
  cancel_silent "UD1-2" "http" [Elem.mk "solution-UD1-2" "none"] (by decide)

/-- C5: for every registered id, when the password matches but no element
with id "solution-" ++ exerciseId exists, the page is unchanged, the prompt
was shown, and the missing-solution configuration alert is emitted. -/
theorem missing_solution_element (exerciseId pw : String) (page : Page)
    (hreg : correctPasswordFor exerciseId = some pw)
    (hel : getElementById page ("solution-" ++ exerciseId) = none) :
    (showSolutionPrompt exerciseId (some pw) page).page = page ∧
      (showSolutionPrompt exerciseId (some pw) page).promptShown = true ∧
      (showSolutionPrompt exerciseId (some pw) page).alerts
        = ["Error de configuración: No se encuentra el contenido de la solución."] := by
  refine ⟨?_, ?_, ?_⟩ <;> simp [showSolutionPrompt, hreg, hel]

/-- C5 witness: db-05 with the correct password on a page without
solution-db-05. -/
theorem missing_solution_element_witness :
    (showSolutionPrompt "db-05" (some "persistencia_nexus")
        [Elem.mk "other" "none"]).page = [Elem.mk "other" "none"] ∧
      (showSolutionPrompt "db-05" (some "persistencia_nexus")
          [Elem.mk "other" "none"]).promptShown = true ∧
      (showSolutionPrompt "db-05" (some "persistencia_nexus")
          [Elem.mk "other" "none"]).alerts
        = ["Error de configuración: No se encuentra el contenido de la solución."] :=
  missing_solution_element "db-05" "persistencia_nexus"
    [Elem.mk "other" "none"] (by decide) (by decide)

/-- C6: for every registered id and every non-cancelled entry, the
WrongPassword alert is emitted exactly when the entered string is not
literally equal to the registered password; String equality in the model is
exact and case-sensitive, as the strict equality of the source. -/
theorem password_check_exact (exerciseId pw p : String) (page : Page)
    (hreg : correctPasswordFor exerciseId = some pw) :
    (showSolutionPrompt exerciseId (some p) page).alerts
        = ["Contraseña incorrecta."] ↔ p ≠ pw := by
  by_cases hp : p = pw
  · subst hp
    cases hel : getElementById page ("solution-" ++ exerciseId) <;>
      simp [showSolutionPrompt, hreg, hel]
  · simp [showSolutionPrompt, hreg, hp]

/-- C6 witness: Http differs from http only in case and is rejected for
UD1-2, while http itself is not. -/
theorem password_check_exact_witness :
    ((showSolutionPrompt "UD1-2" (some "Http") []).alerts
        = ["Contraseña incorrecta."] ↔ ("Http" : String) ≠ "http") ∧
      ((showSolutionPrompt "UD1-2" (some "http") []).alerts
          = ["Contraseña incorrecta."] ↔ ("http" : String) ≠ "http") :=
  ⟨password_check_exact "UD1-2" "http" "Http" [] (by decide),
    password_check_exact "UD1-2" "http" "http" [] (by decide)⟩

/-- C7: a successful reveal is idempotent on the page: invoking again with
the correct password on the page produced by a successful reveal yields the
same page, and the target element shows display "block" after each
invocation. -/
theorem reveal_idempotent (exerciseId pw : String) (page : Page) (e : Elem)
    (hreg : correctPasswordFor exerciseId = some pw)
    (hel : getElementById page ("solution-" ++ exerciseId) = some e) :
    (showSolutionPrompt exerciseId (some pw)
          (showSolutionPrompt exerciseId (some pw) page).page).page
        = (showSolutionPrompt exerciseId (some pw) page).page ∧
      getElementById (showSolutionPrompt exerciseId (some pw) page).page
          ("solution-" ++ exerciseId)
        = some { e with display := "block" } := by
  have h1 : (showSolutionPrompt exerciseId (some pw) page).page
      = setDisplay page ("solution-" ++ exerciseId) "block" := by
    simp [showSolutionPrompt, hreg, hel]
  have h2 : getElementById (setDisplay page ("solution-" ++ exerciseId) "block")
      ("solution-" ++ exerciseId) = some { e with display := "block" } := by
    rw [getElementById_setDisplay, hel]
    rfl
  refine ⟨?_, by rw [h1]; exact h2⟩
  rw [h1]
  simp [showSolutionPrompt, hreg, h2, setDisplay_setDisplay]

/-- C7 witness: revealing UD1-1 twice with the correct password. -/
theorem reveal_idempotent_witness :
    (showSolutionPrompt "UD1-1" (some "cliente-servidor")
          (showSolutionPrompt "UD1-1" (some "cliente-servidor")
            [Elem.mk "solution-UD1-1" "none"]).page).page
        = (showSolutionPrompt "UD1-1" (some "cliente-servidor")
            [Elem.mk "solution-UD1-1" "none"]).page ∧
      getElementById (showSolutionPrompt "UD1-1" (some "cliente-servidor")
            [Elem.mk "solution-UD1-1" "none"]).page "solution-UD1-1"
        = some (Elem.mk "solution-UD1-1" "block") :=
  reveal_idempotent "UD1-1" "cliente-servidor"
    [Elem.mk "solution-UD1-1" "none"] (Elem.mk "solution-UD1-1" "none")
    (by decide) (by decide)

/-- C8: frame property. Every element whose id is not
"solution-" ++ exerciseId is returned unchanged at its position on every
path, and off the successful-match path the whole page is unchanged. -/
theorem showSolutionPrompt_frame (exerciseId : String)
    (entered : Option String) (page : Page) :
    (∀ (j : Nat) (e : Elem), page[j]? = some e →
        e.id ≠ "solution-" ++ exerciseId →
        (showSolutionPrompt exerciseId entered page).page[j]? = some e) ∧
      (¬ successPath exerciseId entered page →
        (showSolutionPrompt exerciseId entered page).page = page) := by
  constructor
  · intro j e hj hne
    rcases page_cases exerciseId entered page with h | ⟨h, _⟩
    · rw [h]; exact hj
    · rw [h]; exact setDisplay_getElem? page _ _ j e hj hne
  · intro hns
    rcases page_cases exerciseId entered page with h | ⟨_, hs⟩
    · exact h
    · exact absurd hs hns

/-- C8 witness: a successful reveal of UD1-1 leaves the unrelated element
other untouched at position 0. -/
theorem showSolutionPrompt_frame_witness :
    (showSolutionPrompt "UD1-1" (some "cliente-servidor")
        [Elem.mk "other" "none", Elem.mk "solution-UD1-1" "none"]).page[0]?
      = some (Elem.mk "other" "none") :=
  (showSolutionPrompt_frame "UD1-1" (some "cliente-servidor")
      [Elem.mk "other" "none", Elem.mk "solution-UD1-1" "none"]).1
    0 (Elem.mk "other" "none") rfl (by decide)

/-- C9: the registry holds exactly the three entries UD1-1, UD1-2 and
db-05 with their passwords, and the prompt is shown for an id exactly when
it is one of those three strings. -/
theorem registry_three_entries :
    correctPasswordFor "UD1-1" = some "cliente-servidor" ∧
      correctPasswordFor "UD1-2" = some "http" ∧
      correctPasswordFor "db-05" = some "persistencia_nexus" ∧
      ∀ exerciseId entered page,
        ((showSolutionPrompt exerciseId entered page).promptShown = true ↔
          (exerciseId = "UD1-1" ∨ exerciseId = "UD1-2" ∨ exerciseId = "db-05")) := by
  refine ⟨rfl, rfl, rfl, ?_⟩
  intro exerciseId entered page
  rw [promptShown_eq_isSome]
  unfold correctPasswordFor
  split_ifs with h1 h2 h3 <;> simp [*]

/-- C9 witness: the prompt is shown for db-05 and not for UD1-3. -/
theorem registry_three_entries_witness :
    (showSolutionPrompt "db-05" none []).promptShown = true ∧
      ¬ (showSolutionPrompt "UD1-3" none []).promptShown = true :=
  ⟨(registry_three_entries.2.2.2 "db-05" none []).mpr
      (Or.inr (Or.inr rfl)),
    fun h => by
      rcases (registry_three_entries.2.2.2 "UD1-3" none []).mp h with
        h' | h' | h' <;> exact absurd h' (by decide)⟩

/-- C10: for every registered id, entering the empty string is treated as a
password attempt and rejected with the WrongPassword alert, leaving the
page unchanged, while the cancel signal (none) produces no alert. -/
theorem empty_string_is_attempt (exerciseId pw : String) (page : Page)
    (hreg : correctPasswordFor exerciseId = some pw) :
    (showSolutionPrompt exerciseId (some "") page).alerts
        = ["Contraseña incorrecta."] ∧
      (showSolutionPrompt exerciseId (some "") page).page = page ∧
      (showSolutionPrompt exerciseId none page).alerts = [] := by
  have hne : ("" : String) ≠ pw :=
    fun h => registered_password_ne_empty exerciseId pw hreg h.symm
  refine ⟨?_, ?_, ?_⟩ <;> simp [showSolutionPrompt, hreg, hne]

/-- C10 witness: the empty string entered for UD1-1. -/
theorem empty_string_is_attempt_witness :
    (showSolutionPrompt "UD1-1" (some "")
        [Elem.mk "solution-UD1-1" "none"]).alerts
      = ["Contraseña incorrecta."] ∧
      (showSolutionPrompt "UD1-1" (some "")
          [Elem.mk "solution-UD1-1" "none"]).page
        = [Elem.mk "solution-UD1-1" "none"] ∧
      (showSolutionPrompt "UD1-1" none
          [Elem.mk "solution-UD1-1" "none"]).alerts = [] :=
  empty_string_is_attempt "UD1-1" "cliente-servidor"
    [Elem.mk "solution-UD1-1" "none"] (by decide)

end Seguridad
